import Mathlib

/-!
Verification of the giga-pong frontend client (src/js/game.js, src/js/config.js).

The JavaScript source is shallowly embedded: JS numbers are modelled as
rationals (ℚ), which is exact for the finite, nonzero-denominator arithmetic
that every theorem below constrains its inputs to; object fields that a wire
frame may omit are modelled as `Option`; a handler that can throw is modelled
by an explicit `raised` flag set at the point where the JS code would throw,
with the state it returns being the state at the moment of the throw.
DOM side effects (canvas style size, canvas internal resolution, the status
widget) become fields of an explicit client-state record; outbound WebSocket
sends become a returned list of messages.
-/

namespace PongFrontend

/-- `CONFIG.CONTROLS.PLAYER1` / `.PLAYER2` from config.js: one logical key
per directional intent. -/
structure ControlKeys where
  UP : String
  DOWN : String
  LEFT : String
  RIGHT : String
deriving DecidableEq, Repr

/-- config.js `CONTROLS.PLAYER1`. -/
def PLAYER1_CONTROLS : ControlKeys :=
  { UP := "w", DOWN := "s", LEFT := "a", RIGHT := "d" }

/-- config.js `CONTROLS.PLAYER2`. -/
def PLAYER2_CONTROLS : ControlKeys :=
  { UP := "ArrowUp", DOWN := "ArrowDown", LEFT := "ArrowLeft", RIGHT := "ArrowRight" }

/-- config.js `CANVAS_WIDTH` (initial/fallback internal resolution). -/
def CANVAS_WIDTH : ℚ := 800

/-- config.js `CANVAS_HEIGHT`. -/
def CANVAS_HEIGHT : ℚ := 600

def COLOR_BACKGROUND : String := "#000000"

def COLOR_TEXT : String := "#FFFFFF"

def COLOR_BOUNDARY : String := "#444444"

def PADDLE_COLOR : String := "#FFFFFF"

def BALL_COLOR : String := "#FFFFFF"

/-- A paddle rectangle as carried in a `game_state` payload. -/
structure Paddle where
  x : ℚ
  y : ℚ
  width : ℚ
  height : ℚ
deriving DecidableEq, Repr

/-- The ball circle as carried in a `game_state` payload. -/
structure Ball where
  x : ℚ
  y : ℚ
  radius : ℚ
deriving DecidableEq, Repr

/-- The `data` object of a `game_state` frame. Every field is `Option`
because a JS object may omit any of them (reading an absent field yields
`undefined`). -/
structure GameData where
  paddle1 : Option Paddle
  paddle2 : Option Paddle
  ball : Option Ball
  score1 : Option Int
  score2 : Option Int
  canvas_width : Option ℚ
  canvas_height : Option ℚ
deriving DecidableEq, Repr

/-- JS truthiness of a possibly-absent numeric field:
`undefined` and `0` are falsy, every other rational is truthy. -/
def truthy : Option ℚ → Bool
  | none => false
  | some v => v != 0

/-- The mutable state of a `PongGame` instance: canvas internal resolution
(`canvas.width`/`canvas.height`), CSS display size (`canvas.style.width`/
`height`, absent until first set), the scale factors, the
`initialDimensionsSet` flag, whether `this.ws` is non-null, the `connected`
flag, the stored snapshot `this.gameState`, and the pressed-keys set. -/
structure ClientState where
  playerId : String
  canvasWidth : ℚ
  canvasHeight : ℚ
  styleWidth : Option ℚ
  styleHeight : Option ℚ
  scaleX : ℚ
  scaleY : ℚ
  initialDimensionsSet : Bool
  ws : Bool
  connected : Bool
  gameState : Option GameData
  pressedKeys : List String
deriving DecidableEq, Repr

/-- The `PongGame` constructor: fallback canvas size from CONFIG, scale 1,
no dimensions received, no socket yet, not connected, no snapshot, no keys. -/
def initialClient (playerId : String) : ClientState :=
  { playerId := playerId
    canvasWidth := CANVAS_WIDTH
    canvasHeight := CANVAS_HEIGHT
    styleWidth := none
    styleHeight := none
    scaleX := 1
    scaleY := 1
    initialDimensionsSet := false
    ws := false
    connected := false
    gameState := none
    pressedKeys := [] }

/-- `PongGame.handleResize` (game.js lines 105-145). The container box
(`container.clientWidth`/`clientHeight`) is an input from the windowing
collaborator. Division in ℚ returns 0 on a zero denominator; the JS code
would produce NaN/Infinity there, a region every theorem below excludes by
hypothesis. -/
def handleResize (containerWidth containerHeight : ℚ) (s : ClientState) : ClientState :=
  match s.gameState with
  | none => s
  | some gs =>
    if s.initialDimensionsSet = false then s
    else
      let cw := gs.canvas_width.getD 0
      let ch := gs.canvas_height.getD 0
      let gameAspect := cw / ch
      let containerAspect := containerWidth / containerHeight
      let displayWidth :=
        if containerAspect > gameAspect then containerHeight * gameAspect else containerWidth
      let displayHeight :=
        if containerAspect > gameAspect then containerHeight else containerWidth / gameAspect
      { s with
        styleWidth := some displayWidth
        styleHeight := some displayHeight
        scaleX := displayWidth / cw
        scaleY := displayHeight / ch }

/-- An outbound WebSocket message (`{type: input, action}` or `{type: reset}`). -/
inductive OutMsg
  | input (action : String)
  | reset
deriving DecidableEq, Repr

/-- `PongGame.resetGame` (game.js lines 291-297): emits a reset frame only
when `this.ws` is non-null and `this.connected` is true. -/
def resetGame (s : ClientState) : List OutMsg :=
  if s.ws && s.connected then [OutMsg.reset] else []

/-- `PongGame.sendInput` (game.js lines 304-311). -/
def sendInput (action : String) (s : ClientState) : List OutMsg :=
  if s.ws && s.connected then [OutMsg.input action] else []

/-- An inbound WebSocket frame as seen by `ws.onmessage`: either text that is
not valid JSON (on which `JSON.parse` throws), or a parsed JSON object with
its `type` discriminator, optional `data` object and optional `message` text. -/
inductive Frame
  | malformed
  | msg (mtype : String) (data : Option GameData) (message : Option String)
deriving DecidableEq, Repr

/-- The observable outcome of one `ws.onmessage` callback: the client state
when the handler returns (or at the moment it throws), whether an exception
escaped the handler, and the text written to the status widget, if any. -/
structure HandlerResult where
  state : ClientState
  raised : Bool
  statusUpdate : Option String
deriving DecidableEq, Repr

/-- `ws.onmessage` (game.js lines 168-209). `JSON.parse` throwing on a
malformed frame is modelled as `raised := true` with the state untouched
(the throw precedes every assignment). A `game_state` frame whose `data`
field is absent first assigns `this.gameState = undefined` and then throws
reading `canvas_width` of undefined. The geometry branch runs only when both
dimensions are truthy and either no dimensions were ever set or they differ
from the current canvas resolution; it then sets the canvas internal
resolution, marks `initialDimensionsSet`, and calls `handleResize`. -/
def onmessage (containerWidth containerHeight : ℚ) (frame : Frame)
    (s : ClientState) : HandlerResult :=
  match frame with
  | .malformed => { state := s, raised := true, statusUpdate := none }
  | .msg mtype data _message =>
    if mtype = "game_state" then
      match data with
      | none => { state := { s with gameState := none }, raised := true, statusUpdate := none }
      | some gs =>
        let s1 := { s with gameState := some gs }
        if truthy gs.canvas_width && truthy gs.canvas_height then
          if s1.initialDimensionsSet = false
              ∨ s1.canvasWidth ≠ gs.canvas_width.getD 0
              ∨ s1.canvasHeight ≠ gs.canvas_height.getD 0 then
            let s2 := { s1 with
              canvasWidth := gs.canvas_width.getD 0
              canvasHeight := gs.canvas_height.getD 0
              initialDimensionsSet := true }
            { state := handleResize containerWidth containerHeight s2
              raised := false, statusUpdate := none }
          else
            { state := s1, raised := false, statusUpdate := none }
        else
          { state := s1, raised := false, statusUpdate := none }
    else if mtype = "connected" then
      { state := s, raised := false, statusUpdate := none }
    else if mtype = "player_disconnected" then
      { state := s, raised := false, statusUpdate := some "Waiting for other player..." }
    else
      { state := s, raised := false, statusUpdate := none }

/-- JS `String.prototype.toLowerCase` on the key identifiers the client
handles: per-character lowercasing. -/
def toLowerCase (str : String) : String := ⟨str.data.map Char.toLower⟩

/-- `document` keydown listener (game.js lines 236-241): lowercases the key
and adds it to the pressed set. -/
def keydown (key : String) (s : ClientState) : ClientState :=
  { s with pressedKeys := s.pressedKeys.insert (toLowerCase key) }

/-- `document` keyup listener (game.js lines 244-247). -/
def keyup (key : String) (s : ClientState) : ClientState :=
  { s with pressedKeys := s.pressedKeys.erase (toLowerCase key) }

/-- One tick of the input-sampler `setInterval` callback (game.js lines
250-268): picks the control scheme by player identity, and for each of the
four directions sends the intent when the (lowercased) mapped key is in the
pressed set. The outbound messages of the tick are returned in program order. -/
def inputTick (s : ClientState) : List OutMsg :=
  let controls := if s.playerId = "player1" then PLAYER1_CONTROLS else PLAYER2_CONTROLS
  (if s.pressedKeys.contains (toLowerCase controls.UP) then sendInput "UP" s else [])
    ++ (if s.pressedKeys.contains (toLowerCase controls.DOWN) then sendInput "DOWN" s else [])
    ++ (if s.pressedKeys.contains (toLowerCase controls.LEFT) then sendInput "LEFT" s else [])
    ++ (if s.pressedKeys.contains (toLowerCase controls.RIGHT) then sendInput "RIGHT" s else [])

/-- One primitive canvas-2D painting operation issued by the render path. -/
inductive DrawOp
  | fillRect (color : String) (x y w h : ℚ)
  | strokeLine (color : String) (x1 y1 x2 y2 : ℚ)
  | arcFill (color : String) (x y radius : ℚ)
  | fillText (font : String) (color : String) (text : String) (x y : ℚ)
deriving DecidableEq, Repr

/-- `PongGame.drawPaddle` (game.js lines 382-385): reading `.x` of an absent
paddle object throws. -/
def drawPaddle (p : Option Paddle) : Except Unit DrawOp :=
  match p with
  | none => .error ()
  | some paddle => .ok (.fillRect PADDLE_COLOR paddle.x paddle.y paddle.width paddle.height)

/-- `PongGame.drawBall` (game.js lines 392-399). -/
def drawBall (b : Option Ball) : Except Unit DrawOp :=
  match b with
  | none => .error ()
  | some ball => .ok (.arcFill BALL_COLOR ball.x ball.y ball.radius)

/-- How `fillText` renders a possibly-absent score: `undefined` coerces to
the string "undefined" rather than throwing. -/
def scoreText : Option Int → String
  | none => "undefined"
  | some n => toString n

/-- `PongGame.render` (game.js lines 334-357) as the ordered list of paint
operations of one iteration, or an error when an operation throws. -/
def render (s : ClientState) : Except Unit (List DrawOp) :=
  let background := DrawOp.fillRect COLOR_BACKGROUND 0 0 s.canvasWidth s.canvasHeight
  match s.gameState with
  | none =>
    .ok [background,
         .fillText "24px Arial" COLOR_TEXT "Waiting for game state..."
           (s.canvasWidth / 2) (s.canvasHeight / 2)]
  | some gs => do
    let centerLine := DrawOp.strokeLine COLOR_BOUNDARY
      (s.canvasWidth / 2) 0 (s.canvasWidth / 2) s.canvasHeight
    let p1 ← drawPaddle gs.paddle1
    let p2 ← drawPaddle gs.paddle2
    let b ← drawBall gs.ball
    let sc1 := DrawOp.fillText "48px Arial" COLOR_TEXT (scoreText gs.score1)
      (s.canvasWidth / 4) 60
    let sc2 := DrawOp.fillText "48px Arial" COLOR_TEXT (scoreText gs.score2)
      (s.canvasWidth / 4 * 3) 60
    .ok [background, centerLine, p1, p2, b, sc1, sc2]

/-- A fully-populated snapshot payload used to instantiate theorems. -/
def sampleData : GameData :=
  { paddle1 := some { x := 10, y := 250, width := 10, height := 100 }
    paddle2 := some { x := 780, y := 250, width := 10, height := 100 }
    ball := some { x := 400, y := 300, radius := 8 }
    score1 := some 0
    score2 := some 0
    canvas_width := some 800
    canvas_height := some 600 }

/-- A client that has received `sampleData` and synced its geometry. -/
def sampleClient : ClientState :=
  { playerId := "player1"
    canvasWidth := 800
    canvasHeight := 600
    styleWidth := none
    styleHeight := none
    scaleX := 1
    scaleY := 1
    initialDimensionsSet := true
    ws := true
    connected := true
    gameState := some sampleData
    pressedKeys := [] }

/-- C1: every completed run of `handleResize` on a client holding a snapshot
with positive `canvas_width` and `canvas_height`, for any container box with
positive width and height, yields a display box with
`displayWidth / displayHeight = canvas_width / canvas_height`, and stores
`scaleX = displayWidth / canvas_width` and `scaleY = displayHeight / canvas_height`. -/
theorem c1_aspect_and_scale_invariant (s : ClientState) (gs : GameData)
    (w h cw ch : ℚ)
    (hgs : s.gameState = some gs) (hset : s.initialDimensionsSet = true)
    (hw : gs.canvas_width = some w) (hh : gs.canvas_height = some h)
    (hwpos : 0 < w) (hhpos : 0 < h) (hcw : 0 < cw) (hch : 0 < ch) :
    ∃ dw dh,
      (handleResize cw ch s).styleWidth = some dw ∧
      (handleResize cw ch s).styleHeight = some dh ∧
      0 < dw ∧ 0 < dh ∧ dw / dh = w / h ∧
      (handleResize cw ch s).scaleX = dw / w ∧
      (handleResize cw ch s).scaleY = dh / h := by
  have hw0 : w ≠ 0 := ne_of_gt hwpos
  have hh0 : h ≠ 0 := ne_of_gt hhpos
  have hcw0 : cw ≠ 0 := ne_of_gt hcw
  have hch0 : ch ≠ 0 := ne_of_gt hch
  simp only [handleResize, hgs, hset, hw, hh, Option.getD_some, reduceIte]
  by_cases hcase : cw / ch > w / h
  · simp only [if_pos hcase]
    refine ⟨ch * (w / h), ch, rfl, rfl, mul_pos hch (div_pos hwpos hhpos), hch, ?_, rfl, rfl⟩
    field_simp
    ring
  · simp only [if_neg hcase]
    refine ⟨cw, cw / (w / h), rfl, rfl, hcw, div_pos hcw (div_pos hwpos hhpos), ?_, rfl, rfl⟩
    field_simp
    ring

/-- C1 witness: container 1000x500 with the 800x600 sample client. -/
theorem c1_aspect_and_scale_invariant_witness :
    ∃ dw dh,
      (handleResize 1000 500 sampleClient).styleWidth = some dw ∧
      (handleResize 1000 500 sampleClient).styleHeight = some dh ∧
      0 < dw ∧ 0 < dh ∧ dw / dh = (800 : ℚ) / 600 ∧
      (handleResize 1000 500 sampleClient).scaleX = dw / 800 ∧
      (handleResize 1000 500 sampleClient).scaleY = dh / 600 :=
  c1_aspect_and_scale_invariant sampleClient sampleData 800 600 1000 500
    rfl rfl rfl rfl (by norm_num) (by norm_num) (by norm_num) (by norm_num)

/-- `sampleData` with the `canvas_width` field absent. -/
def widthlessData : GameData :=
  { sampleData with canvas_width := none }

/-- `sampleData` with the `canvas_height` field absent. -/
def heightlessData : GameData :=
  { sampleData with canvas_height := none }

/-- C2: the reconciler fits to height (`displayHeight = containerHeight`,
`displayWidth = displayHeight * gameAspect`) exactly when
`containerAspect > gameAspect`, else fits to width; in particular container
1000x500 with geometry 800x600 gives height 500 and width 2000/3 (≈666.67),
and container 400x500 gives width 400 and height 300. -/
theorem c2_display_box_algorithm (s : ClientState) (gs : GameData) (w h cw ch : ℚ)
    (hgs : s.gameState = some gs) (hset : s.initialDimensionsSet = true)
    (hw : gs.canvas_width = some w) (hh : gs.canvas_height = some h) :
    ((handleResize cw ch s).styleWidth
        = some (if cw / ch > w / h then ch * (w / h) else cw)
      ∧ (handleResize cw ch s).styleHeight
        = some (if cw / ch > w / h then ch else cw / (w / h)))
    ∧ (handleResize 1000 500 sampleClient).styleHeight = some 500
    ∧ (handleResize 1000 500 sampleClient).styleWidth = some (2000 / 3)
    ∧ (handleResize 400 500 sampleClient).styleWidth = some 400
    ∧ (handleResize 400 500 sampleClient).styleHeight = some 300 := by
  refine ⟨⟨?_, ?_⟩, ?_, ?_, ?_, ?_⟩
  · simp only [handleResize, hgs, hset, hw, hh, Option.getD_some]
    rfl
  · simp only [handleResize, hgs, hset, hw, hh, Option.getD_some]
    rfl
  · norm_num [handleResize, sampleClient, sampleData]
  · norm_num [handleResize, sampleClient, sampleData]
  · norm_num [handleResize, sampleClient, sampleData]
  · norm_num [handleResize, sampleClient, sampleData]

/-- C2 witness: the general fit rule applied to the sample client with a
640x480 container. -/
theorem c2_display_box_algorithm_witness :
    (((handleResize 640 480 sampleClient).styleWidth
        = some (if (640 : ℚ) / 480 > 800 / 600 then 480 * ((800 : ℚ) / 600) else 640)
      ∧ (handleResize 640 480 sampleClient).styleHeight
        = some (if (640 : ℚ) / 480 > 800 / 600 then 480 else 640 / ((800 : ℚ) / 600)))
    ∧ (handleResize 1000 500 sampleClient).styleHeight = some 500
    ∧ (handleResize 1000 500 sampleClient).styleWidth = some (2000 / 3)
    ∧ (handleResize 400 500 sampleClient).styleWidth = some 400
    ∧ (handleResize 400 500 sampleClient).styleHeight = some 300) :=
  c2_display_box_algorithm sampleClient sampleData 800 600 640 480 rfl rfl rfl rfl

/-- C3 counterexample: the claim says a frame that is not valid JSON does not
make the handler raise, but `JSON.parse` has no surrounding try/catch, so the
handler raises on any malformed frame. -/
theorem c3_counterexample_malformed_raises :
    (onmessage 640 480 Frame.malformed (initialClient "player1")).raised = true := rfl

/-- C3 amended: a JSON frame with an unrecognized `type` is dropped silently
(no raise, state unchanged, no user-visible effect); a frame that is not
valid JSON makes the handler raise from the parse step, but the throw comes
before any assignment, so the snapshot and geometry are unchanged and there
is no user-visible effect. -/
theorem c3_amended_malformed_frames (cw ch : ℚ) (s : ClientState) (mtype : String)
    (data : Option GameData) (message : Option String)
    (h1 : mtype ≠ "game_state") (h2 : mtype ≠ "connected")
    (h3 : mtype ≠ "player_disconnected") :
    onmessage cw ch Frame.malformed s
        = { state := s, raised := true, statusUpdate := none }
      ∧ onmessage cw ch (Frame.msg mtype data message) s
        = { state := s, raised := false, statusUpdate := none } := by
  refine ⟨rfl, ?_⟩
  simp only [onmessage, if_neg h1, if_neg h2, if_neg h3]

/-- C3 witness: a frame of type "bogus" at a concrete client. -/
theorem c3_amended_malformed_frames_witness :
    onmessage 640 480 Frame.malformed (initialClient "player1")
        = { state := initialClient "player1", raised := true, statusUpdate := none }
      ∧ onmessage 640 480 (Frame.msg "bogus" none none) (initialClient "player1")
        = { state := initialClient "player1", raised := false, statusUpdate := none } :=
  c3_amended_malformed_frames 640 480 (initialClient "player1") "bogus" none none
    (by decide) (by decide) (by decide)

/-- C5: a `game_state` frame whose data lacks `canvas_width` does not raise,
leaves the canvas internal geometry, the display transform and the
dimensions flag unchanged, and still replaces the stored snapshot. -/
theorem c5_missing_canvas_width (cw ch : ℚ) (s : ClientState) (gs : GameData)
    (hw : gs.canvas_width = none) :
    onmessage cw ch (Frame.msg "game_state" (some gs) none) s
      = { state := { s with gameState := some gs }
          raised := false, statusUpdate := none } := by
  simp [onmessage, hw, truthy]

/-- C5 witness: the sample snapshot with `canvas_width` removed. -/
theorem c5_missing_canvas_width_witness :
    onmessage 640 480 (Frame.msg "game_state" (some widthlessData) none) sampleClient
      = { state := { sampleClient with gameState := some widthlessData }
          raised := false, statusUpdate := none } :=
  c5_missing_canvas_width 640 480 sampleClient widthlessData rfl

/-- C10: the geometry-sync branch requires both dimensions present and
non-zero — a `game_state` frame with `canvas_height` absent, or with either
dimension zero, leaves the canvas internal resolution, the
`initialDimensionsSet` flag and the display transform unchanged while still
replacing the stored snapshot. -/
theorem c10_geometry_needs_both_dims (cw ch : ℚ) (s : ClientState) (gs : GameData)
    (h : gs.canvas_height = none ∨ gs.canvas_width = some 0 ∨ gs.canvas_height = some 0) :
    onmessage cw ch (Frame.msg "game_state" (some gs) none) s
      = { state := { s with gameState := some gs }
          raised := false, statusUpdate := none } := by
  rcases h with h | h | h <;> simp [onmessage, h, truthy]

/-- C10 witness: the sample snapshot with `canvas_height` removed. -/
theorem c10_geometry_needs_both_dims_witness :
    onmessage 640 480 (Frame.msg "game_state" (some heightlessData) none) sampleClient
      = { state := { sampleClient with gameState := some heightlessData }
          raised := false, statusUpdate := none } :=
  c10_geometry_needs_both_dims 640 480 sampleClient heightlessData (Or.inl rfl)

/-- C4: whenever the connection is not in the Open state (the `connected`
flag is false), `resetGame` and `sendInput` with any action emit no outbound
frame; both are total functions, so neither throws. -/
theorem c4_no_send_when_not_open (s : ClientState) (action : String)
    (h : s.connected = false) :
    resetGame s = [] ∧ sendInput action s = [] := by
  constructor <;> simp [resetGame, sendInput, h]

/-- C4 witness at a concrete disconnected client. -/
theorem c4_no_send_when_not_open_witness :
    resetGame (initialClient "player1") = []
      ∧ sendInput "UP" (initialClient "player1") = [] :=
  c4_no_send_when_not_open (initialClient "player1") "UP" rfl

/-- C8: the reconciler is gated — a viewport resize before the first
snapshot has set the dimensions leaves the state unchanged, and a
`game_state` frame whose dimensions equal the current canvas geometry (set
by a previous snapshot) skips the geometry branch entirely: the canvas
resolution and display transform stay unchanged and only the snapshot is
replaced. -/
theorem c8_reconciler_gating (cw ch cw2 ch2 : ℚ) (s : ClientState) (gs : GameData)
    (hset : s.initialDimensionsSet = true)
    (hw : gs.canvas_width = some s.canvasWidth)
    (hh : gs.canvas_height = some s.canvasHeight) :
    (∀ t : ClientState, t.initialDimensionsSet = false → handleResize cw ch t = t)
    ∧ onmessage cw2 ch2 (Frame.msg "game_state" (some gs) none) s
        = { state := { s with gameState := some gs }
            raised := false, statusUpdate := none } := by
  constructor
  · intro t ht
    cases hg : t.gameState <;> simp [handleResize, hg, ht]
  · by_cases hzw : s.canvasWidth = 0 <;> by_cases hzh : s.canvasHeight = 0 <;>
      simp [onmessage, hw, hh, truthy, hset, hzw, hzh]

/-- C8 witness: the sample client receiving a snapshot with its own
800x600 geometry. -/
theorem c8_reconciler_gating_witness :
    (∀ t : ClientState, t.initialDimensionsSet = false → handleResize 640 480 t = t)
    ∧ onmessage 640 480 (Frame.msg "game_state" (some sampleData) none) sampleClient
        = { state := { sampleClient with gameState := some sampleData }
            raised := false, statusUpdate := none } :=
  c8_reconciler_gating 640 480 640 480 sampleClient sampleData rfl rfl rfl

/-- C6: on each sampler tick over an open connection, each of the four
directional intents produces exactly one outbound input message when its
mapped key (per the active control scheme) is pressed and none otherwise;
with w and d held under the player1 scheme the tick sends exactly one UP
and one RIGHT and nothing else. -/
theorem c6_input_sampler_tick (s : ClientState)
    (hws : s.ws = true) (hconn : s.connected = true) :
    (((inputTick s).count (OutMsg.input "UP")
        = if s.pressedKeys.contains (toLowerCase ((if s.playerId = "player1"
            then PLAYER1_CONTROLS else PLAYER2_CONTROLS).UP)) then 1 else 0)
      ∧ ((inputTick s).count (OutMsg.input "DOWN")
        = if s.pressedKeys.contains (toLowerCase ((if s.playerId = "player1"
            then PLAYER1_CONTROLS else PLAYER2_CONTROLS).DOWN)) then 1 else 0)
      ∧ ((inputTick s).count (OutMsg.input "LEFT")
        = if s.pressedKeys.contains (toLowerCase ((if s.playerId = "player1"
            then PLAYER1_CONTROLS else PLAYER2_CONTROLS).LEFT)) then 1 else 0)
      ∧ ((inputTick s).count (OutMsg.input "RIGHT")
        = if s.pressedKeys.contains (toLowerCase ((if s.playerId = "player1"
            then PLAYER1_CONTROLS else PLAYER2_CONTROLS).RIGHT)) then 1 else 0))
    ∧ (s.playerId = "player1" → s.pressedKeys = ["w", "d"] →
        inputTick s = [OutMsg.input "UP", OutMsg.input "RIGHT"]) := by
  have hsi : ∀ a, sendInput a s = [OutMsg.input a] := by
    intro a
    simp [sendInput, hws, hconn]
  constructor
  · by_cases hp : s.playerId = "player1"
    · simp only [inputTick, if_pos hp, hsi]
      split_ifs <;> decide
    · simp only [inputTick, if_neg hp, hsi]
      split_ifs <;> decide
  · intro hp hkeys
    simp only [inputTick, if_pos hp, hsi, hkeys]
    decide

/-- A player1 client with an open connection holding w and d. -/
def heldKeysClient : ClientState :=
  { sampleClient with pressedKeys := ["w", "d"] }

/-- C6 witness: the w-and-d-held tick at a concrete connected client. -/
theorem c6_input_sampler_tick_witness :
    inputTick heldKeysClient = [OutMsg.input "UP", OutMsg.input "RIGHT"] :=
  (c6_input_sampler_tick heldKeysClient rfl rfl).2 rfl rfl

/-- C9: key matching is case-insensitive for each of the four directional
intents — both the key from a key-down notification and the scheme's mapped
key are lowercased before comparison, so any held key whose lowercased form
equals the lowercased mapped key of a direction makes the tick send that
direction's intent. -/
theorem c9_case_insensitive_keys (s : ClientState) (k : String)
    (hws : s.ws = true) (hconn : s.connected = true) :
    (toLowerCase k = toLowerCase ((if s.playerId = "player1" then PLAYER1_CONTROLS
        else PLAYER2_CONTROLS).UP) → OutMsg.input "UP" ∈ inputTick (keydown k s))
    ∧ (toLowerCase k = toLowerCase ((if s.playerId = "player1" then PLAYER1_CONTROLS
        else PLAYER2_CONTROLS).DOWN) → OutMsg.input "DOWN" ∈ inputTick (keydown k s))
    ∧ (toLowerCase k = toLowerCase ((if s.playerId = "player1" then PLAYER1_CONTROLS
        else PLAYER2_CONTROLS).LEFT) → OutMsg.input "LEFT" ∈ inputTick (keydown k s))
    ∧ (toLowerCase k = toLowerCase ((if s.playerId = "player1" then PLAYER1_CONTROLS
        else PLAYER2_CONTROLS).RIGHT) → OutMsg.input "RIGHT" ∈ inputTick (keydown k s)) := by
  have hsi : ∀ a,
      sendInput a { s with pressedKeys := s.pressedKeys.insert (toLowerCase k) }
        = [OutMsg.input a] := by
    intro a
    simp [sendInput, hws, hconn]
  refine ⟨fun hk => ?_, fun hk => ?_, fun hk => ?_, fun hk => ?_⟩ <;>
  · simp only [inputTick, keydown, hsi]
    rw [← hk]
    simp

/-- A client identical to the sample one but identifying as player2. -/
def player2Client : ClientState :=
  { sampleClient with playerId := "player2" }

/-- C9 witness: uppercase W and D under the player1 scheme map to the UP and
RIGHT intents, and all-caps ARROWUP under the player2 scheme maps to UP. -/
theorem c9_case_insensitive_keys_witness :
    OutMsg.input "UP" ∈ inputTick (keydown "W" sampleClient)
    ∧ OutMsg.input "RIGHT" ∈ inputTick (keydown "D" sampleClient)
    ∧ OutMsg.input "UP" ∈ inputTick (keydown "ARROWUP" player2Client) :=
  ⟨(c9_case_insensitive_keys sampleClient "W" rfl rfl).1 (by decide),
   (c9_case_insensitive_keys sampleClient "D" rfl rfl).2.2.2 (by decide),
   (c9_case_insensitive_keys player2Client "ARROWUP" rfl rfl).1 (by decide)⟩

/-- C7: a render iteration without a snapshot paints only the background and
the waiting placeholder; with a well-formed snapshot it paints the
background, center divider, both paddles, the ball and both scores using the
snapshot's coordinate values unmodified (no scaleX/scaleY factor appears),
and in both cases returns without throwing. -/
theorem c7_render_iteration (s s2 : ClientState) (gs : GameData)
    (p1 p2 : Paddle) (b : Ball)
    (habs : s.gameState = none)
    (hgs : s2.gameState = some gs) (hp1 : gs.paddle1 = some p1)
    (hp2 : gs.paddle2 = some p2) (hb : gs.ball = some b) :
    render s = .ok [
        DrawOp.fillRect COLOR_BACKGROUND 0 0 s.canvasWidth s.canvasHeight,
        DrawOp.fillText "24px Arial" COLOR_TEXT "Waiting for game state..."
          (s.canvasWidth / 2) (s.canvasHeight / 2)]
    ∧ render s2 = .ok [
        DrawOp.fillRect COLOR_BACKGROUND 0 0 s2.canvasWidth s2.canvasHeight,
        DrawOp.strokeLine COLOR_BOUNDARY (s2.canvasWidth / 2) 0
          (s2.canvasWidth / 2) s2.canvasHeight,
        DrawOp.fillRect PADDLE_COLOR p1.x p1.y p1.width p1.height,
        DrawOp.fillRect PADDLE_COLOR p2.x p2.y p2.width p2.height,
        DrawOp.arcFill BALL_COLOR b.x b.y b.radius,
        DrawOp.fillText "48px Arial" COLOR_TEXT (scoreText gs.score1)
          (s2.canvasWidth / 4) 60,
        DrawOp.fillText "48px Arial" COLOR_TEXT (scoreText gs.score2)
          (s2.canvasWidth / 4 * 3) 60] := by
  constructor
  · simp [render, habs]
  · simp only [render, hgs, hp1, hp2, hb, drawPaddle, drawBall]
    rfl

/-- C7 witness: a freshly constructed client (no snapshot) and the sample
client (full snapshot). -/
theorem c7_render_iteration_witness :
    render (initialClient "player1") = .ok [
        DrawOp.fillRect COLOR_BACKGROUND 0 0 (initialClient "player1").canvasWidth
          (initialClient "player1").canvasHeight,
        DrawOp.fillText "24px Arial" COLOR_TEXT "Waiting for game state..."
          ((initialClient "player1").canvasWidth / 2)
          ((initialClient "player1").canvasHeight / 2)]
    ∧ render sampleClient = .ok [
        DrawOp.fillRect COLOR_BACKGROUND 0 0 sampleClient.canvasWidth
          sampleClient.canvasHeight,
        DrawOp.strokeLine COLOR_BOUNDARY (sampleClient.canvasWidth / 2) 0
          (sampleClient.canvasWidth / 2) sampleClient.canvasHeight,
        DrawOp.fillRect PADDLE_COLOR 10 250 10 100,
        DrawOp.fillRect PADDLE_COLOR 780 250 10 100,
        DrawOp.arcFill BALL_COLOR 400 300 8,
        DrawOp.fillText "48px Arial" COLOR_TEXT (scoreText sampleData.score1)
          (sampleClient.canvasWidth / 4) 60,
        DrawOp.fillText "48px Arial" COLOR_TEXT (scoreText sampleData.score2)
          (sampleClient.canvasWidth / 4 * 3) 60] :=
  c7_render_iteration (initialClient "player1") sampleClient sampleData
    { x := 10, y := 250, width := 10, height := 100 }
    { x := 780, y := 250, width := 10, height := 100 }
    { x := 400, y := 300, radius := 8 }
    rfl rfl rfl rfl rfl

end PongFrontend
